import Mathlib

/-!
Shallow embedding of `src/tls.rs` (warp's TLS termination layer).

External collaborators (the `rustls_pemfile` PEM parser, the rustls
certificate/key engine, the client-certificate verifier builder, and the
raw-connection source) are out of scope of the repository and are passed
to the embedded functions as explicit oracle arguments: the embedding
captures exactly the control flow and the error mapping that the
repository's own code performs on the oracles' results.
-/

deriving instance DecidableEq for Except

namespace WarpTls

/-- Models `std::net::SocketAddr` as an opaque printable value. -/
abbrev SocketAddr := String

/-- Models a DER-encoded certificate (`CertificateDer`) as its byte string. -/
abbrev CertificateDer := List Nat

/-- Models a DER-encoded private key (`PrivateKeyDer`) as its byte string. -/
abbrev PrivateKeyDer := List Nat

/-- Models `rustls::Error` (the TLS engine's own error) as an opaque code. -/
abbrev TlsError := Nat

/-- Models `std::io::Error` as produced by the PEM-parsing layer: both genuine
read failures of the underlying source and decode failures of the byte stream
surface as `io::Error` values, distinguished here by their kind. -/
inductive IoError
  /-- The underlying source could not be read (a true I/O failure, e.g. a
  `LazyFile` whose path cannot be opened). -/
  | readFailure (msg : String)
  /-- The byte stream was read but could not be decoded (`ErrorKind::InvalidData`). -/
  | invalidData (msg : String)
deriving DecidableEq, Repr

/-- Mirrors the `TlsConfigError` enum of `src/tls.rs`. -/
inductive TlsConfigError
  | Io (err : IoError)
  | CertParseError
  | InvalidIdentityPem
  | MissingPrivateKey
  | UnknownPrivateKeyFormat
  | EmptyKey
  | InvalidKey (err : TlsError)
deriving DecidableEq, Repr

/-- Models the credential sources a builder field can hold: `io::empty()`
(the default), a `LazyFile { path, file: None }`, or a
`Cursor::new(Vec::from(bytes))`. -/
inductive CredSource
  | emptyRead
  | lazyFile (path : String)
  | cursor (bytes : List Nat)
deriving DecidableEq, Repr

/-- Mirrors the `TlsClientAuth` enum of `src/tls.rs`: the boxed reader held by
`Optional`/`Required` is the trust-anchor credential source. -/
inductive TlsClientAuth
  | Off
  | Optional (trustAnchor : CredSource)
  | Required (trustAnchor : CredSource)
deriving DecidableEq, Repr

/-- Mirrors the `TlsConfigBuilder` struct of `src/tls.rs`. -/
structure TlsConfigBuilder where
  cert : CredSource
  key : CredSource
  client_auth : TlsClientAuth
  ocsp_resp : List Nat
deriving DecidableEq, Repr

/-- Mirrors `TlsConfigBuilder::new`. -/
def TlsConfigBuilder.new : TlsConfigBuilder :=
  { key := CredSource.emptyRead
    cert := CredSource.emptyRead
    client_auth := TlsClientAuth.Off
    ocsp_resp := [] }

/-- Mirrors `TlsConfigBuilder::key_path`. -/
def TlsConfigBuilder.key_path (b : TlsConfigBuilder) (path : String) : TlsConfigBuilder :=
  { b with key := CredSource.lazyFile path }

/-- Mirrors `TlsConfigBuilder::key`. -/
def TlsConfigBuilder.key_bytes (b : TlsConfigBuilder) (k : List Nat) : TlsConfigBuilder :=
  { b with key := CredSource.cursor k }

/-- Mirrors `TlsConfigBuilder::cert_path`. -/
def TlsConfigBuilder.cert_path (b : TlsConfigBuilder) (path : String) : TlsConfigBuilder :=
  { b with cert := CredSource.lazyFile path }

/-- Mirrors `TlsConfigBuilder::cert`. -/
def TlsConfigBuilder.cert_bytes (b : TlsConfigBuilder) (c : List Nat) : TlsConfigBuilder :=
  { b with cert := CredSource.cursor c }

/-- Mirrors `TlsConfigBuilder::client_auth_optional_path`. -/
def TlsConfigBuilder.client_auth_optional_path (b : TlsConfigBuilder) (path : String) :
    TlsConfigBuilder :=
  { b with client_auth := TlsClientAuth.Optional (CredSource.lazyFile path) }

/-- Mirrors `TlsConfigBuilder::client_auth_optional`. -/
def TlsConfigBuilder.client_auth_optional (b : TlsConfigBuilder) (trustAnchor : List Nat) :
    TlsConfigBuilder :=
  { b with client_auth := TlsClientAuth.Optional (CredSource.cursor trustAnchor) }

/-- Mirrors `TlsConfigBuilder::client_auth_required_path`. -/
def TlsConfigBuilder.client_auth_required_path (b : TlsConfigBuilder) (path : String) :
    TlsConfigBuilder :=
  { b with client_auth := TlsClientAuth.Required (CredSource.lazyFile path) }

/-- Mirrors `TlsConfigBuilder::client_auth_required`. -/
def TlsConfigBuilder.client_auth_required (b : TlsConfigBuilder) (trustAnchor : List Nat) :
    TlsConfigBuilder :=
  { b with client_auth := TlsClientAuth.Required (CredSource.cursor trustAnchor) }

/-- Mirrors `TlsConfigBuilder::ocsp_resp`. -/
def TlsConfigBuilder.ocsp_resp_bytes (b : TlsConfigBuilder) (resp : List Nat) : TlsConfigBuilder :=
  { b with ocsp_resp := resp }

/-- Models `rustls::RootCertStore` as the list of certificates it holds. -/
structure RootCertStore where
  roots : List CertificateDer
deriving DecidableEq, Repr

/-- Mirrors `RootCertStore::empty`. -/
def RootCertStore.emptyStore : RootCertStore := { roots := [] }

/-- Models `RootCertStore::add_parsable_certificates` (external rustls): every
certificate the engine can parse, decided by the oracle `parsable`, is added;
the return value is the updated store with the (added, skipped) counts. -/
def RootCertStore.add_parsable_certificates (store : RootCertStore)
    (parsable : CertificateDer → Bool) (certs : List CertificateDer) :
    RootCertStore × Nat × Nat :=
  let added := certs.filter parsable
  let skipped := certs.filter (fun c => !parsable c)
  ({ roots := store.roots ++ added }, added.length, skipped.length)

/-- Models `WebPkiClientVerifier` as the trust store it was built from plus
whether `allow_unauthenticated` was applied (true for `Optional` mode). -/
structure Verifier where
  roots : RootCertStore
  allowAnonymous : Bool
deriving DecidableEq, Repr

/-- Models `rustls::ServerConfig`: the output of `with_client_cert_verifier` /
`with_no_client_auth` followed by `with_single_cert_with_ocsp`, with the
mutable `alpn_protocols` field. -/
structure ServerConfig where
  client_cert_verifier : Option Verifier
  cert_chain : List CertificateDer
  privateKey : PrivateKeyDer
  ocsp : List Nat
  alpn_protocols : List String
deriving DecidableEq, Repr

/-- Mirrors the local function `read_trust_anchor` inside
`TlsConfigBuilder::build`: parse the trust-anchor source as certificates
(PEM errors, I/O included, map to `TlsConfigError::Io` here), add the
parsable ones to an empty store, and fail with `CertParseError` when zero
were added. -/
def read_trust_anchor
    (parseCerts : CredSource → Except IoError (List CertificateDer))
    (parsable : CertificateDer → Bool) (trustAnchor : CredSource) :
    Except TlsConfigError RootCertStore :=
  match parseCerts trustAnchor with
  | Except.error e => Except.error (TlsConfigError.Io e)
  | Except.ok trust_anchors =>
    let (store, added, _skipped) :=
      RootCertStore.emptyStore.add_parsable_certificates parsable trust_anchors
    if added == 0 then Except.error TlsConfigError.CertParseError
    else Except.ok store

/-- Mirrors the `match self.client_auth` block inside `TlsConfigBuilder::build`
that chooses `with_no_client_auth` / `with_client_cert_verifier`: `none` for
`Off`; for `Optional`/`Required`, the trust anchors are read
(`read_trust_anchor`) and a verifier is built (with `allow_unauthenticated`
exactly in the `Optional` arm), a verifier-builder failure mapping to
`CertParseError`. -/
def buildClientVerifier
    (parseCerts : CredSource → Except IoError (List CertificateDer))
    (parsable : CertificateDer → Bool)
    (buildVerifier : RootCertStore → Bool → Except Unit Verifier)
    (clientAuth : TlsClientAuth) : Except TlsConfigError (Option Verifier) :=
  match clientAuth with
  | TlsClientAuth.Off => Except.ok none
  | TlsClientAuth.Optional trustAnchor =>
    match read_trust_anchor parseCerts parsable trustAnchor with
    | Except.error e => Except.error e
    | Except.ok store =>
      match buildVerifier store true with
      | Except.error _ => Except.error TlsConfigError.CertParseError
      | Except.ok v => Except.ok (some v)
  | TlsClientAuth.Required trustAnchor =>
    match read_trust_anchor parseCerts parsable trustAnchor with
    | Except.error e => Except.error e
    | Except.ok store =>
      match buildVerifier store false with
      | Except.error _ => Except.error TlsConfigError.CertParseError
      | Except.ok v => Except.ok (some v)

/-- Mirrors `TlsConfigBuilder::build`, with the external calls passed as
oracles:
- `parseCerts src` models `rustls_pemfile::certs(BufReader::new(src)).collect()`;
- `parseKey src` models `rustls_pemfile::private_key(BufReader::new(src))`
  (returns at most one key, accepting RSA/EC/PKCS#8 — delegated to the oracle);
- `parsable` models which certificates `add_parsable_certificates` accepts;
- `buildVerifier store allowAnon` models
  `WebPkiClientVerifier::builder(store.into())[.allow_unauthenticated()].build()`;
- `certifyKey chain key` models whether `with_single_cert_with_ocsp` accepts
  the chain/key pair (`Err` is the engine's rejection).
The control flow and every error mapping below are transcribed from the
source. -/
def TlsConfigBuilder.build (b : TlsConfigBuilder)
    (parseCerts : CredSource → Except IoError (List CertificateDer))
    (parseKey : CredSource → Except IoError (Option PrivateKeyDer))
    (parsable : CertificateDer → Bool)
    (buildVerifier : RootCertStore → Bool → Except Unit Verifier)
    (certifyKey : List CertificateDer → PrivateKeyDer → Except TlsError Unit) :
    Except TlsConfigError ServerConfig :=
  match parseCerts b.cert with
  | Except.error _e => Except.error TlsConfigError.CertParseError
  | Except.ok cert =>
    match parseKey b.key with
    | Except.error e => Except.error (TlsConfigError.Io e)
    | Except.ok none => Except.error TlsConfigError.MissingPrivateKey
    | Except.ok (some key) =>
      match buildClientVerifier parseCerts parsable buildVerifier b.client_auth with
      | Except.error e => Except.error e
      | Except.ok verifier =>
        match certifyKey cert key with
        | Except.error e => Except.error (TlsConfigError.InvalidKey e)
        | Except.ok _ =>
          Except.ok
            { client_cert_verifier := verifier
              cert_chain := cert
              privateKey := key
              ocsp := b.ocsp_resp
              alpn_protocols := ["h2", "http/1.1"] }

/-- Models `std::task::Poll`. -/
inductive Poll (α : Type)
  | Ready (a : α)
  | Pending
deriving DecidableEq, Repr

/-- Models hyper's `AddrStream` (the raw, already-accepted connection): the
only capability the code uses besides handing it to the handshake is its
`remote_addr()`. -/
structure AddrStream where
  remote_addr : SocketAddr
deriving DecidableEq, Repr

/-- Models `tokio_rustls::Accept<AddrStream>`, the in-progress handshake
future produced by `TlsAcceptor::from(config).accept(stream)`: it holds the
configuration it was bound to and the raw connection it consumed. -/
structure AcceptFuture where
  config : ServerConfig
  conn : AddrStream
deriving DecidableEq, Repr

/-- Models `tokio_rustls::server::TlsStream<AddrStream>`, the fully
negotiated encrypted channel, as the raw connection it wraps plus an opaque
session identifier. -/
structure RustlsServerStream where
  inner : AddrStream
  session : Nat
deriving DecidableEq, Repr

/-- Mirrors the `State` enum of `src/tls.rs`. -/
inductive State
  | Handshaking (accept : AcceptFuture)
  | Streaming (stream : RustlsServerStream)
deriving DecidableEq, Repr

/-- Mirrors the `TlsStream` struct of `src/tls.rs`. -/
structure TlsStream where
  state : State
  remote_addr : SocketAddr
deriving DecidableEq, Repr

/-- Mirrors `TlsStream::new`: capture the peer address from the raw
connection, bind the shared configuration to the raw connection to form the
handshake future, and start in `Handshaking`. -/
def TlsStream.new (stream : AddrStream) (config : ServerConfig) : TlsStream :=
  let remote_addr := stream.remote_addr
  let accept : AcceptFuture := { config := config, conn := stream }
  { state := State.Handshaking accept, remote_addr := remote_addr }

/-- Mirrors the `Transport` impl for `TlsStream`: `Some(self.remote_addr)`. -/
def TlsStream.transport_remote_addr (s : TlsStream) : Option SocketAddr :=
  some s.remote_addr

/-- Mirrors `TlsStream::poll_read`. The oracles model the two external polls:
`hsPoll` is `Pin::new(accept).poll(cx)` on the handshake future, and
`streamRead` is `poll_read` on the negotiated channel (its buffer effects are
out of scope; only its `Poll<io::Result<()>>` outcome is modelled). The
returned pair is (the poll result, the stream after the call). -/
def TlsStream.poll_read (s : TlsStream)
    (hsPoll : AcceptFuture → Poll (Except IoError RustlsServerStream))
    (streamRead : RustlsServerStream → Poll (Except IoError Unit)) :
    Poll (Except IoError Unit) × TlsStream :=
  match s.state with
  | State.Handshaking accept =>
    match hsPoll accept with
    | Poll.Pending => (Poll.Pending, s)
    | Poll.Ready (Except.ok stream) =>
      let result := streamRead stream
      (result, { s with state := State.Streaming stream })
    | Poll.Ready (Except.error err) => (Poll.Ready (Except.error err), s)
  | State.Streaming stream => (streamRead stream, s)

/-- Mirrors `TlsStream::poll_write`; `streamWrite` models `poll_write` on the
negotiated channel, returning `Poll<io::Result<usize>>`. -/
def TlsStream.poll_write (s : TlsStream)
    (hsPoll : AcceptFuture → Poll (Except IoError RustlsServerStream))
    (streamWrite : RustlsServerStream → Poll (Except IoError Nat)) :
    Poll (Except IoError Nat) × TlsStream :=
  match s.state with
  | State.Handshaking accept =>
    match hsPoll accept with
    | Poll.Pending => (Poll.Pending, s)
    | Poll.Ready (Except.ok stream) =>
      let result := streamWrite stream
      (result, { s with state := State.Streaming stream })
    | Poll.Ready (Except.error err) => (Poll.Ready (Except.error err), s)
  | State.Streaming stream => (streamWrite stream, s)

/-- Mirrors `TlsStream::poll_flush`: an immediate `Ok(())` while
`Handshaking`, a delegation to the channel's flush while `Streaming`. -/
def TlsStream.poll_flush (s : TlsStream)
    (streamFlush : RustlsServerStream → Poll (Except IoError Unit)) :
    Poll (Except IoError Unit) × TlsStream :=
  match s.state with
  | State.Handshaking _ => (Poll.Ready (Except.ok ()), s)
  | State.Streaming stream => (streamFlush stream, s)

/-- Mirrors `TlsStream::poll_shutdown`: an immediate `Ok(())` while
`Handshaking`, a delegation to the channel's shutdown while `Streaming`. -/
def TlsStream.poll_shutdown (s : TlsStream)
    (streamShutdown : RustlsServerStream → Poll (Except IoError Unit)) :
    Poll (Except IoError Unit) × TlsStream :=
  match s.state with
  | State.Handshaking _ => (Poll.Ready (Except.ok ()), s)
  | State.Streaming stream => (streamShutdown stream, s)

/-- Mirrors the `TlsAcceptor` struct: the shared (`Arc`) configuration; the
underlying `AddrIncoming` source is modelled through the oracle argument of
`poll_accept`. -/
structure TlsAcceptor where
  config : ServerConfig
deriving DecidableEq, Repr

/-- Mirrors `TlsAcceptor::poll_accept`; `incomingPoll` is the result of
`Pin::new(&mut pin.incoming).poll_accept(cx)` on the underlying source
(`None` = source exhausted). -/
def TlsAcceptor.poll_accept (acc : TlsAcceptor)
    (incomingPoll : Poll (Option (Except IoError AddrStream))) :
    Poll (Option (Except IoError TlsStream)) :=
  match incomingPoll with
  | Poll.Pending => Poll.Pending
  | Poll.Ready (some (Except.ok sock)) =>
    Poll.Ready (some (Except.ok (TlsStream.new sock acc.config)))
  | Poll.Ready (some (Except.error e)) => Poll.Ready (some (Except.error e))
  | Poll.Ready none => Poll.Ready none

/-! Concrete fixtures: oracle instantiations and values used to evaluate the
embedded functions on explicit inputs. -/

/-- Fixture: the `io::Error` a `LazyFile` produces when its path cannot be
opened (a genuine read failure, not a decode failure). -/
def ioErr0 : IoError := IoError.readFailure "error reading file (cert.pem)"

/-- Fixture: the `io::Error` for an unreadable key source. -/
def keyErr0 : IoError := IoError.readFailure "error reading file (key.pem)"

/-- Fixture oracle: PEM certificate parsing that fails with a read failure
(an unreadable source surfaces through the `rustls_pemfile::certs` iterator
as an `io::Error` item). -/
def certsReadFail (_src : CredSource) : Except IoError (List CertificateDer) :=
  Except.error ioErr0

/-- Fixture oracle: PEM certificate parsing of a certificate-free source —
`rustls_pemfile::certs` yields no items and no error, so the collect is
`Ok(vec![])`. -/
def certsEmptyOk (_src : CredSource) : Except IoError (List CertificateDer) :=
  Except.ok []

/-- Fixture oracle: key parsing that finds one private key. -/
def keySomeOk (_src : CredSource) : Except IoError (Option PrivateKeyDer) :=
  Except.ok (some [1])

/-- Fixture oracle: key parsing whose source cannot be read. -/
def keyReadFail (_src : CredSource) : Except IoError (Option PrivateKeyDer) :=
  Except.error keyErr0

/-- Fixture oracle: key parsing that finds no private key in the source. -/
def keyNoneOk (_src : CredSource) : Except IoError (Option PrivateKeyDer) :=
  Except.ok none

/-- Fixture oracle: the engine parses every trust-anchor certificate. -/
def allParsable (_c : CertificateDer) : Bool := true

/-- Fixture oracle: verifier construction succeeds, recording its inputs. -/
def verifierOk (store : RootCertStore) (allowAnon : Bool) : Except Unit Verifier :=
  Except.ok { roots := store, allowAnonymous := allowAnon }

/-- Fixture oracle: the engine accepts the chain/key pair. -/
def certifyOk (_chain : List CertificateDer) (_key : PrivateKeyDer) : Except TlsError Unit :=
  Except.ok ()

/-- Fixture oracle: the engine rejects the chain/key pair (as rustls does,
for instance, for an empty certificate chain). -/
def certifyReject (_chain : List CertificateDer) (_key : PrivateKeyDer) : Except TlsError Unit :=
  Except.error 0

/-- Fixture: a builder whose certificate source is an (unreadable) file path
and whose key is supplied as bytes. -/
def builderC1 : TlsConfigBuilder := (TlsConfigBuilder.new.cert_path "cert.pem").key_bytes [9]

/-- Fixture: a builder with default (Off) client auth and a byte-backed key. -/
def builderOff : TlsConfigBuilder := TlsConfigBuilder.new.key_bytes [9]

/-- Fixture: a builder in Optional client-auth mode with a byte-backed
trust-anchor source. -/
def builderOpt : TlsConfigBuilder := TlsConfigBuilder.new.client_auth_optional [7]

/-- Fixture: a builder in Required client-auth mode with a byte-backed
trust-anchor source. -/
def builderReq : TlsConfigBuilder := TlsConfigBuilder.new.client_auth_required [7]

/-- Fixture: the configuration produced by a successful build over the
fixtures `certsEmptyOk`, `keySomeOk` and `certifyOk`. -/
def cfg0 : ServerConfig :=
  { client_cert_verifier := none
    cert_chain := []
    privateKey := [1]
    ocsp := []
    alpn_protocols := ["h2", "http/1.1"] }

/-- Fixture: a raw connection with a concrete peer address. -/
def addr0 : AddrStream := { remote_addr := "127.0.0.1:4443" }

/-- Fixture: the handshake future binding `cfg0` to `addr0`. -/
def accept0 : AcceptFuture := { config := cfg0, conn := addr0 }

/-- Fixture: a negotiated encrypted channel over `addr0`. -/
def srv0 : RustlsServerStream := { inner := addr0, session := 0 }

/-- Fixture: a `TlsStream` still in the `Handshaking` state. -/
def hsStream0 : TlsStream := { state := State.Handshaking accept0, remote_addr := addr0.remote_addr }

/-- Fixture: a `TlsStream` in the `Streaming` state. -/
def strStream0 : TlsStream := { state := State.Streaming srv0, remote_addr := addr0.remote_addr }

/-- Fixture oracle: the handshake poll reports "not yet ready". -/
def hsPendingO (_ : AcceptFuture) : Poll (Except IoError RustlsServerStream) := Poll.Pending

/-- Fixture oracle: the handshake completes successfully with `srv0`. -/
def hsOkO (_ : AcceptFuture) : Poll (Except IoError RustlsServerStream) :=
  Poll.Ready (Except.ok srv0)

/-- Fixture oracle: the handshake fails with `ioErr0`. -/
def hsErrO (_ : AcceptFuture) : Poll (Except IoError RustlsServerStream) :=
  Poll.Ready (Except.error ioErr0)

/-- Fixture oracle: the channel's read completes successfully. -/
def readOkO (_ : RustlsServerStream) : Poll (Except IoError Unit) := Poll.Ready (Except.ok ())

/-- Fixture oracle: the channel's write reports 3 bytes written. -/
def writeOkO (_ : RustlsServerStream) : Poll (Except IoError Nat) := Poll.Ready (Except.ok 3)

/-- Fixture oracle: the channel's flush (or shutdown) completes successfully. -/
def flushOkO (_ : RustlsServerStream) : Poll (Except IoError Unit) := Poll.Ready (Except.ok ())

/-- Fixture: an acceptor sharing `cfg0`. -/
def acceptor0 : TlsAcceptor := { config := cfg0 }

/-! Helper lemmas: stage-by-stage evaluation equations for
`TlsConfigBuilder.build`, shared by the claim theorems below. -/

/-- Helper: a certificate-stage failure makes `build` return `CertParseError`. -/
theorem build_eq_of_cert_error
    (b : TlsConfigBuilder)
    (parseCerts : CredSource → Except IoError (List CertificateDer))
    (parseKey : CredSource → Except IoError (Option PrivateKeyDer))
    (parsable : CertificateDer → Bool)
    (buildVerifier : RootCertStore → Bool → Except Unit Verifier)
    (certifyKey : List CertificateDer → PrivateKeyDer → Except TlsError Unit)
    (e : IoError) (hc : parseCerts b.cert = Except.error e) :
    b.build parseCerts parseKey parsable buildVerifier certifyKey =
      Except.error TlsConfigError.CertParseError := by
  unfold TlsConfigBuilder.build
  rw [hc]

/-- Helper: a key-stage read failure makes `build` return `Io`. -/
theorem build_eq_of_key_error
    (b : TlsConfigBuilder)
    (parseCerts : CredSource → Except IoError (List CertificateDer))
    (parseKey : CredSource → Except IoError (Option PrivateKeyDer))
    (parsable : CertificateDer → Bool)
    (buildVerifier : RootCertStore → Bool → Except Unit Verifier)
    (certifyKey : List CertificateDer → PrivateKeyDer → Except TlsError Unit)
    (certs : List CertificateDer) (e : IoError)
    (hc : parseCerts b.cert = Except.ok certs) (hk : parseKey b.key = Except.error e) :
    b.build parseCerts parseKey parsable buildVerifier certifyKey =
      Except.error (TlsConfigError.Io e) := by
  unfold TlsConfigBuilder.build
  rw [hc, hk]

/-- Helper: a key-free key source makes `build` return `MissingPrivateKey`. -/
theorem build_eq_of_key_none
    (b : TlsConfigBuilder)
    (parseCerts : CredSource → Except IoError (List CertificateDer))
    (parseKey : CredSource → Except IoError (Option PrivateKeyDer))
    (parsable : CertificateDer → Bool)
    (buildVerifier : RootCertStore → Bool → Except Unit Verifier)
    (certifyKey : List CertificateDer → PrivateKeyDer → Except TlsError Unit)
    (certs : List CertificateDer)
    (hc : parseCerts b.cert = Except.ok certs) (hk : parseKey b.key = Except.ok none) :
    b.build parseCerts parseKey parsable buildVerifier certifyKey =
      Except.error TlsConfigError.MissingPrivateKey := by
  unfold TlsConfigBuilder.build
  rw [hc, hk]

/-- Helper: a client-verifier-stage failure propagates out of `build`. -/
theorem build_eq_of_verifier_error
    (b : TlsConfigBuilder)
    (parseCerts : CredSource → Except IoError (List CertificateDer))
    (parseKey : CredSource → Except IoError (Option PrivateKeyDer))
    (parsable : CertificateDer → Bool)
    (buildVerifier : RootCertStore → Bool → Except Unit Verifier)
    (certifyKey : List CertificateDer → PrivateKeyDer → Except TlsError Unit)
    (certs : List CertificateDer) (k : PrivateKeyDer) (err : TlsConfigError)
    (hc : parseCerts b.cert = Except.ok certs) (hk : parseKey b.key = Except.ok (some k))
    (hv : buildClientVerifier parseCerts parsable buildVerifier b.client_auth =
      Except.error err) :
    b.build parseCerts parseKey parsable buildVerifier certifyKey = Except.error err := by
  unfold TlsConfigBuilder.build
  rw [hc, hk, hv]

/-- Helper: once the certificate, key, and verifier stages passed, `build` is
decided by the engine's acceptance of the chain/key pair. -/
theorem build_eq_of_verifier_ok
    (b : TlsConfigBuilder)
    (parseCerts : CredSource → Except IoError (List CertificateDer))
    (parseKey : CredSource → Except IoError (Option PrivateKeyDer))
    (parsable : CertificateDer → Bool)
    (buildVerifier : RootCertStore → Bool → Except Unit Verifier)
    (certifyKey : List CertificateDer → PrivateKeyDer → Except TlsError Unit)
    (certs : List CertificateDer) (k : PrivateKeyDer) (verifier : Option Verifier)
    (hc : parseCerts b.cert = Except.ok certs) (hk : parseKey b.key = Except.ok (some k))
    (hv : buildClientVerifier parseCerts parsable buildVerifier b.client_auth =
      Except.ok verifier) :
    b.build parseCerts parseKey parsable buildVerifier certifyKey =
      (match certifyKey certs k with
        | Except.error e => Except.error (TlsConfigError.InvalidKey e)
        | Except.ok _ =>
          Except.ok
            { client_cert_verifier := verifier
              cert_chain := certs
              privateKey := k
              ocsp := b.ocsp_resp
              alpn_protocols := ["h2", "http/1.1"] }) := by
  unfold TlsConfigBuilder.build
  rw [hc, hk, hv]

/-- Helper: `read_trust_anchor` fails with `CertParseError` when the anchors
parse cleanly but zero of them are added to the store. -/
theorem read_trust_anchor_zero_added
    (parseCerts : CredSource → Except IoError (List CertificateDer))
    (parsable : CertificateDer → Bool) (ta : CredSource) (tas : List CertificateDer)
    (hta : parseCerts ta = Except.ok tas) (hz : (tas.filter parsable).length = 0) :
    read_trust_anchor parseCerts parsable ta = Except.error TlsConfigError.CertParseError := by
  unfold read_trust_anchor
  rw [hta]
  simp [RootCertStore.add_parsable_certificates, hz]

/-- Helper: `buildClientVerifier` on `Optional` unfolds to the trust-anchor
read followed by the verifier build with `allow_unauthenticated`. -/
theorem buildClientVerifier_optional_eq
    (parseCerts : CredSource → Except IoError (List CertificateDer))
    (parsable : CertificateDer → Bool)
    (buildVerifier : RootCertStore → Bool → Except Unit Verifier) (ta : CredSource) :
    buildClientVerifier parseCerts parsable buildVerifier (TlsClientAuth.Optional ta) =
      (match read_trust_anchor parseCerts parsable ta with
        | Except.error e => Except.error e
        | Except.ok store =>
          match buildVerifier store true with
          | Except.error _ => Except.error TlsConfigError.CertParseError
          | Except.ok v => Except.ok (some v)) := rfl

/-- Helper: `buildClientVerifier` on `Required` unfolds to the trust-anchor
read followed by the verifier build without `allow_unauthenticated`. -/
theorem buildClientVerifier_required_eq
    (parseCerts : CredSource → Except IoError (List CertificateDer))
    (parsable : CertificateDer → Bool)
    (buildVerifier : RootCertStore → Bool → Except Unit Verifier) (ta : CredSource) :
    buildClientVerifier parseCerts parsable buildVerifier (TlsClientAuth.Required ta) =
      (match read_trust_anchor parseCerts parsable ta with
        | Except.error e => Except.error e
        | Except.ok store =>
          match buildVerifier store false with
          | Except.error _ => Except.error TlsConfigError.CertParseError
          | Except.ok v => Except.ok (some v)) := rfl

/-- Claim C1, counterexample: when the certificate source cannot be read (a
genuine I/O failure, surfacing through the certificate-parse stage), `build`
returns `CertParseError`, not the `Io` variant — contradicting the claim that
an I/O failure yields an `Io` error rather than `CertParseError`. -/
theorem cert_read_failure_yields_parse_error_cex :
    builderC1.build certsReadFail keySomeOk allParsable verifierOk certifyOk =
        Except.error TlsConfigError.CertParseError ∧
    builderC1.build certsReadFail keySomeOk allParsable verifierOk certifyOk ≠
        Except.error (TlsConfigError.Io ioErr0) :=
  ⟨rfl, by decide⟩

/-- Claim C1 (amended): `build` reads and parses the certificate source as a
chain of X.509 certificates, and every failure of that stage — a decode
failure or an I/O failure reading the source alike — is reported as
`CertParseError`; the `Io` variant is not produced by the certificate stage. -/
theorem build_cert_stage_failure_maps_to_CertParseError
    (b : TlsConfigBuilder)
    (parseCerts : CredSource → Except IoError (List CertificateDer))
    (parseKey : CredSource → Except IoError (Option PrivateKeyDer))
    (parsable : CertificateDer → Bool)
    (buildVerifier : RootCertStore → Bool → Except Unit Verifier)
    (certifyKey : List CertificateDer → PrivateKeyDer → Except TlsError Unit)
    (e : IoError) (h : parseCerts b.cert = Except.error e) :
    b.build parseCerts parseKey parsable buildVerifier certifyKey =
      Except.error TlsConfigError.CertParseError := by
  unfold TlsConfigBuilder.build
  rw [h]

/-- Claim C1, witness: a concrete unreadable certificate source. -/
theorem build_cert_stage_failure_maps_to_CertParseError_witness :
    builderC1.build certsReadFail keySomeOk allParsable verifierOk certifyOk =
      Except.error TlsConfigError.CertParseError :=
  build_cert_stage_failure_maps_to_CertParseError builderC1 certsReadFail keySomeOk
    allParsable verifierOk certifyOk ioErr0 rfl

/-- Claim C2, counterexample: a certificate-free certificate source decodes to
zero certificates, yet `build` does not fail with `CertParseError` — it
proceeds, and the engine's rejection of the empty chain surfaces as
`InvalidKey` — contradicting the claim that zero decoded certificates (in
particular an empty source) yield `CertParseError`. -/
theorem empty_cert_source_not_CertParseError_cex :
    builderOff.build certsEmptyOk keySomeOk allParsable verifierOk certifyReject =
        Except.error (TlsConfigError.InvalidKey 0) ∧
    builderOff.build certsEmptyOk keySomeOk allParsable verifierOk certifyReject ≠
        Except.error TlsConfigError.CertParseError :=
  ⟨rfl, by decide⟩

/-- Claim C2 (amended): `build` fails with `CertParseError` when decoding the
certificate stream returns an error, and — in Optional or Required
client-auth mode — when zero trust anchors were successfully added to the
trust store; a certificate source that cleanly decodes to zero certificates
does not yield `CertParseError` (with Off client auth the parse stage passes
with an empty chain and any failure arises later, e.g. as `InvalidKey`). -/
theorem build_CertParseError_conditions
    (parseCerts : CredSource → Except IoError (List CertificateDer))
    (parseKey : CredSource → Except IoError (Option PrivateKeyDer))
    (parsable : CertificateDer → Bool)
    (buildVerifier : RootCertStore → Bool → Except Unit Verifier)
    (certifyKey : List CertificateDer → PrivateKeyDer → Except TlsError Unit)
    (b : TlsConfigBuilder) (ta : CredSource) (certs tas : List CertificateDer)
    (k : PrivateKeyDer) (e : IoError) :
    (parseCerts b.cert = Except.error e →
      b.build parseCerts parseKey parsable buildVerifier certifyKey =
        Except.error TlsConfigError.CertParseError) ∧
    (b.client_auth = TlsClientAuth.Optional ta →
      parseCerts b.cert = Except.ok certs →
      parseKey b.key = Except.ok (some k) →
      parseCerts ta = Except.ok tas →
      (tas.filter parsable).length = 0 →
      b.build parseCerts parseKey parsable buildVerifier certifyKey =
        Except.error TlsConfigError.CertParseError) ∧
    (b.client_auth = TlsClientAuth.Required ta →
      parseCerts b.cert = Except.ok certs →
      parseKey b.key = Except.ok (some k) →
      parseCerts ta = Except.ok tas →
      (tas.filter parsable).length = 0 →
      b.build parseCerts parseKey parsable buildVerifier certifyKey =
        Except.error TlsConfigError.CertParseError) ∧
    (b.client_auth = TlsClientAuth.Off →
      parseCerts b.cert = Except.ok [] →
      parseKey b.key = Except.ok (some k) →
      b.build parseCerts parseKey parsable buildVerifier certifyKey ≠
        Except.error TlsConfigError.CertParseError) := by
  refine ⟨?_, ?_, ?_, ?_⟩
  · intro h
    exact build_eq_of_cert_error b parseCerts parseKey parsable buildVerifier certifyKey e h
  · intro hca hc hk hta hz
    have hv : buildClientVerifier parseCerts parsable buildVerifier b.client_auth =
        Except.error TlsConfigError.CertParseError := by
      rw [hca, buildClientVerifier_optional_eq,
        read_trust_anchor_zero_added parseCerts parsable ta tas hta hz]
    exact build_eq_of_verifier_error b parseCerts parseKey parsable buildVerifier certifyKey
      certs k TlsConfigError.CertParseError hc hk hv
  · intro hca hc hk hta hz
    have hv : buildClientVerifier parseCerts parsable buildVerifier b.client_auth =
        Except.error TlsConfigError.CertParseError := by
      rw [hca, buildClientVerifier_required_eq,
        read_trust_anchor_zero_added parseCerts parsable ta tas hta hz]
    exact build_eq_of_verifier_error b parseCerts parseKey parsable buildVerifier certifyKey
      certs k TlsConfigError.CertParseError hc hk hv
  · intro hca hc hk
    have hv : buildClientVerifier parseCerts parsable buildVerifier b.client_auth =
        Except.ok none := by rw [hca]; rfl
    rw [build_eq_of_verifier_ok b parseCerts parseKey parsable buildVerifier certifyKey
      [] k none hc hk hv]
    cases hck : certifyKey [] k <;> simp [hck]

/-- Claim C2, witness: concrete instances for each conjunct — an unreadable
certificate source, Optional and Required modes with an anchor-free trust
source, and a certificate-free certificate source with Off auth whose build
fails with `InvalidKey`, not `CertParseError`. -/
theorem build_CertParseError_conditions_witness :
    (builderC1.build certsReadFail keySomeOk allParsable verifierOk certifyReject =
        Except.error TlsConfigError.CertParseError) ∧
    (builderOpt.build certsEmptyOk keySomeOk allParsable verifierOk certifyOk =
        Except.error TlsConfigError.CertParseError) ∧
    (builderReq.build certsEmptyOk keySomeOk allParsable verifierOk certifyOk =
        Except.error TlsConfigError.CertParseError) ∧
    (builderOff.build certsEmptyOk keySomeOk allParsable verifierOk certifyReject ≠
        Except.error TlsConfigError.CertParseError) :=
  ⟨(build_CertParseError_conditions certsReadFail keySomeOk allParsable verifierOk
      certifyReject builderC1 (CredSource.cursor [7]) [] [] [1] ioErr0).1 rfl,
   (build_CertParseError_conditions certsEmptyOk keySomeOk allParsable verifierOk
      certifyOk builderOpt (CredSource.cursor [7]) [] [] [1] ioErr0).2.1
      rfl rfl rfl rfl rfl,
   (build_CertParseError_conditions certsEmptyOk keySomeOk allParsable verifierOk
      certifyOk builderReq (CredSource.cursor [7]) [] [] [1] ioErr0).2.2.1
      rfl rfl rfl rfl rfl,
   (build_CertParseError_conditions certsEmptyOk keySomeOk allParsable verifierOk
      certifyReject builderOff (CredSource.cursor [7]) [] [] [1] ioErr0).2.2.2
      rfl rfl rfl⟩

/-- Claim C5: every successful `build` produces a configuration whose
advertised application-protocol list is exactly `["h2", "http/1.1"]`, the
HTTP/2 identifier first. -/
theorem build_sets_alpn_h2_http11
    (b : TlsConfigBuilder)
    (parseCerts : CredSource → Except IoError (List CertificateDer))
    (parseKey : CredSource → Except IoError (Option PrivateKeyDer))
    (parsable : CertificateDer → Bool)
    (buildVerifier : RootCertStore → Bool → Except Unit Verifier)
    (certifyKey : List CertificateDer → PrivateKeyDer → Except TlsError Unit)
    (cfg : ServerConfig)
    (h : b.build parseCerts parseKey parsable buildVerifier certifyKey = Except.ok cfg) :
    cfg.alpn_protocols = ["h2", "http/1.1"] := by
  cases hc : parseCerts b.cert with
  | error e =>
    rw [build_eq_of_cert_error b parseCerts parseKey parsable buildVerifier certifyKey e hc]
      at h
    cases h
  | ok cert =>
    cases hk : parseKey b.key with
    | error e =>
      rw [build_eq_of_key_error b parseCerts parseKey parsable buildVerifier certifyKey
        cert e hc hk] at h
      cases h
    | ok ko =>
      cases ko with
      | none =>
        rw [build_eq_of_key_none b parseCerts parseKey parsable buildVerifier certifyKey
          cert hc hk] at h
        cases h
      | some key =>
        cases hv : buildClientVerifier parseCerts parsable buildVerifier b.client_auth with
        | error err =>
          rw [build_eq_of_verifier_error b parseCerts parseKey parsable buildVerifier
            certifyKey cert key err hc hk hv] at h
          cases h
        | ok verifier =>
          rw [build_eq_of_verifier_ok b parseCerts parseKey parsable buildVerifier
            certifyKey cert key verifier hc hk hv] at h
          cases hck : certifyKey cert key with
          | error e => rw [hck] at h; cases h
          | ok u =>
            rw [hck] at h
            injection h with h2
            subst h2
            rfl

/-- Claim C5, witness: a concrete successful build. -/
theorem build_sets_alpn_h2_http11_witness :
    cfg0.alpn_protocols = ["h2", "http/1.1"] :=
  build_sets_alpn_h2_http11 builderOff certsEmptyOk keySomeOk allParsable verifierOk
    certifyOk cfg0 rfl

/-- Claim C6: once the certificate stage has succeeded, `build` parses the
private-key source as at most one key (format acceptance is delegated to the
PEM layer): a read failure of the key source is reported as `Io`, and a
cleanly read source containing no private key as `MissingPrivateKey`. -/
theorem build_key_stage_error_mapping
    (b : TlsConfigBuilder)
    (parseCerts : CredSource → Except IoError (List CertificateDer))
    (parseKey : CredSource → Except IoError (Option PrivateKeyDer))
    (parsable : CertificateDer → Bool)
    (buildVerifier : RootCertStore → Bool → Except Unit Verifier)
    (certifyKey : List CertificateDer → PrivateKeyDer → Except TlsError Unit)
    (certs : List CertificateDer) (e : IoError) :
    (parseCerts b.cert = Except.ok certs → parseKey b.key = Except.error e →
      b.build parseCerts parseKey parsable buildVerifier certifyKey =
        Except.error (TlsConfigError.Io e)) ∧
    (parseCerts b.cert = Except.ok certs → parseKey b.key = Except.ok none →
      b.build parseCerts parseKey parsable buildVerifier certifyKey =
        Except.error TlsConfigError.MissingPrivateKey) := by
  constructor
  · intro hc hk
    unfold TlsConfigBuilder.build
    rw [hc, hk]
  · intro hc hk
    unfold TlsConfigBuilder.build
    rw [hc, hk]

/-- Claim C6, witness: an unreadable key source yields `Io`; a readable but
key-free source yields `MissingPrivateKey`. -/
theorem build_key_stage_error_mapping_witness :
    (builderOff.build certsEmptyOk keyReadFail allParsable verifierOk certifyOk =
        Except.error (TlsConfigError.Io keyErr0)) ∧
    (builderOff.build certsEmptyOk keyNoneOk allParsable verifierOk certifyOk =
        Except.error TlsConfigError.MissingPrivateKey) :=
  ⟨(build_key_stage_error_mapping builderOff certsEmptyOk keyReadFail allParsable
      verifierOk certifyOk [] keyErr0).1 rfl rfl,
   (build_key_stage_error_mapping builderOff certsEmptyOk keyNoneOk allParsable
      verifierOk certifyOk [] keyErr0).2 rfl rfl⟩

/-- Helper: `poll_read` never changes the captured peer address. -/
theorem poll_read_remote_addr (s : TlsStream)
    (hsPoll : AcceptFuture → Poll (Except IoError RustlsServerStream))
    (streamRead : RustlsServerStream → Poll (Except IoError Unit)) :
    (s.poll_read hsPoll streamRead).2.remote_addr = s.remote_addr := by
  rcases s with ⟨st, addr⟩
  cases st with
  | Handshaking accept =>
    cases hp : hsPoll accept with
    | Pending => simp [TlsStream.poll_read, hp]
    | Ready r =>
      cases r with
      | ok stream => simp [TlsStream.poll_read, hp]
      | error e => simp [TlsStream.poll_read, hp]
  | Streaming stream => simp [TlsStream.poll_read]

/-- Helper: `poll_write` never changes the captured peer address. -/
theorem poll_write_remote_addr (s : TlsStream)
    (hsPoll : AcceptFuture → Poll (Except IoError RustlsServerStream))
    (streamWrite : RustlsServerStream → Poll (Except IoError Nat)) :
    (s.poll_write hsPoll streamWrite).2.remote_addr = s.remote_addr := by
  rcases s with ⟨st, addr⟩
  cases st with
  | Handshaking accept =>
    cases hp : hsPoll accept with
    | Pending => simp [TlsStream.poll_write, hp]
    | Ready r =>
      cases r with
      | ok stream => simp [TlsStream.poll_write, hp]
      | error e => simp [TlsStream.poll_write, hp]
  | Streaming stream => simp [TlsStream.poll_write]

/-- Helper: `poll_flush` never changes the captured peer address. -/
theorem poll_flush_remote_addr (s : TlsStream)
    (streamFlush : RustlsServerStream → Poll (Except IoError Unit)) :
    (s.poll_flush streamFlush).2.remote_addr = s.remote_addr := by
  rcases s with ⟨st, addr⟩
  cases st with
  | Handshaking accept => simp [TlsStream.poll_flush]
  | Streaming stream => simp [TlsStream.poll_flush]

/-- Helper: `poll_shutdown` never changes the captured peer address. -/
theorem poll_shutdown_remote_addr (s : TlsStream)
    (streamShutdown : RustlsServerStream → Poll (Except IoError Unit)) :
    (s.poll_shutdown streamShutdown).2.remote_addr = s.remote_addr := by
  rcases s with ⟨st, addr⟩
  cases st with
  | Handshaking accept => simp [TlsStream.poll_shutdown]
  | Streaming stream => simp [TlsStream.poll_shutdown]

/-- Claim C3: a read on a `Handshaking` stream propagates a pending handshake
as "not ready" with the state unchanged; on handshake success it transitions
to `Streaming` and returns the result of the caller's read against the new
channel in the same call; on handshake failure it surfaces the error and the
state does not transition to `Streaming`. -/
theorem poll_read_handshaking_behavior (s : TlsStream) (accept : AcceptFuture)
    (hsPoll : AcceptFuture → Poll (Except IoError RustlsServerStream))
    (streamRead : RustlsServerStream → Poll (Except IoError Unit))
    (h : s.state = State.Handshaking accept) :
    (hsPoll accept = Poll.Pending →
      s.poll_read hsPoll streamRead = (Poll.Pending, s)) ∧
    (∀ stream, hsPoll accept = Poll.Ready (Except.ok stream) →
      s.poll_read hsPoll streamRead =
        (streamRead stream, { s with state := State.Streaming stream })) ∧
    (∀ e, hsPoll accept = Poll.Ready (Except.error e) →
      s.poll_read hsPoll streamRead = (Poll.Ready (Except.error e), s)) := by
  refine ⟨?_, ?_, ?_⟩
  · intro hp
    simp [TlsStream.poll_read, h, hp]
  · intro stream hp
    simp [TlsStream.poll_read, h, hp]
  · intro e hp
    simp [TlsStream.poll_read, h, hp]

/-- Claim C3, witness: a concrete `Handshaking` stream polled under a pending,
a succeeding, and a failing handshake oracle. -/
theorem poll_read_handshaking_behavior_witness :
    (hsStream0.poll_read hsPendingO readOkO = (Poll.Pending, hsStream0)) ∧
    (hsStream0.poll_read hsOkO readOkO =
      (readOkO srv0, { hsStream0 with state := State.Streaming srv0 })) ∧
    (hsStream0.poll_read hsErrO readOkO =
      (Poll.Ready (Except.error ioErr0), hsStream0)) :=
  ⟨(poll_read_handshaking_behavior hsStream0 accept0 hsPendingO readOkO rfl).1 rfl,
   (poll_read_handshaking_behavior hsStream0 accept0 hsOkO readOkO rfl).2.1 srv0 rfl,
   (poll_read_handshaking_behavior hsStream0 accept0 hsErrO readOkO rfl).2.2 ioErr0 rfl⟩

/-- Claim C4: once a stream is `Streaming`, every read, write, flush, and
shutdown delegates to the encrypted channel and leaves the state (and the
whole stream) unchanged — the `Handshaking` state is never re-entered. -/
theorem streaming_state_is_absorbing (s : TlsStream) (stream : RustlsServerStream)
    (hsPoll : AcceptFuture → Poll (Except IoError RustlsServerStream))
    (streamRead : RustlsServerStream → Poll (Except IoError Unit))
    (streamWrite : RustlsServerStream → Poll (Except IoError Nat))
    (streamFlush : RustlsServerStream → Poll (Except IoError Unit))
    (streamShutdown : RustlsServerStream → Poll (Except IoError Unit))
    (h : s.state = State.Streaming stream) :
    s.poll_read hsPoll streamRead = (streamRead stream, s) ∧
    s.poll_write hsPoll streamWrite = (streamWrite stream, s) ∧
    s.poll_flush streamFlush = (streamFlush stream, s) ∧
    s.poll_shutdown streamShutdown = (streamShutdown stream, s) := by
  refine ⟨?_, ?_, ?_, ?_⟩
  · simp [TlsStream.poll_read, h]
  · simp [TlsStream.poll_write, h]
  · simp [TlsStream.poll_flush, h]
  · simp [TlsStream.poll_shutdown, h]

/-- Claim C4, witness: a concrete `Streaming` stream under concrete channel
oracles. -/
theorem streaming_state_is_absorbing_witness :
    strStream0.poll_read hsPendingO readOkO = (readOkO srv0, strStream0) ∧
    strStream0.poll_write hsPendingO writeOkO = (writeOkO srv0, strStream0) ∧
    strStream0.poll_flush flushOkO = (flushOkO srv0, strStream0) ∧
    strStream0.poll_shutdown flushOkO = (flushOkO srv0, strStream0) :=
  streaming_state_is_absorbing strStream0 srv0 hsPendingO readOkO writeOkO flushOkO
    flushOkO rfl

/-- Claim C7: a flush while `Handshaking` is an immediate no-op success, and
while `Streaming` delegates to the channel's flush; symmetrically for
shutdown. Neither operation changes the state. -/
theorem flush_shutdown_behavior (s : TlsStream) (accept : AcceptFuture)
    (stream : RustlsServerStream)
    (streamFlush : RustlsServerStream → Poll (Except IoError Unit))
    (streamShutdown : RustlsServerStream → Poll (Except IoError Unit)) :
    (s.state = State.Handshaking accept →
      s.poll_flush streamFlush = (Poll.Ready (Except.ok ()), s) ∧
      s.poll_shutdown streamShutdown = (Poll.Ready (Except.ok ()), s)) ∧
    (s.state = State.Streaming stream →
      s.poll_flush streamFlush = (streamFlush stream, s) ∧
      s.poll_shutdown streamShutdown = (streamShutdown stream, s)) := by
  constructor
  · intro h
    constructor
    · simp [TlsStream.poll_flush, h]
    · simp [TlsStream.poll_shutdown, h]
  · intro h
    constructor
    · simp [TlsStream.poll_flush, h]
    · simp [TlsStream.poll_shutdown, h]

/-- Claim C7, witness: concrete `Handshaking` and `Streaming` streams. -/
theorem flush_shutdown_behavior_witness :
    (hsStream0.poll_flush flushOkO = (Poll.Ready (Except.ok ()), hsStream0)) ∧
    (hsStream0.poll_shutdown flushOkO = (Poll.Ready (Except.ok ()), hsStream0)) ∧
    (strStream0.poll_flush flushOkO = (flushOkO srv0, strStream0)) ∧
    (strStream0.poll_shutdown flushOkO = (flushOkO srv0, strStream0)) :=
  ⟨((flush_shutdown_behavior hsStream0 accept0 srv0 flushOkO flushOkO).1 rfl).1,
   ((flush_shutdown_behavior hsStream0 accept0 srv0 flushOkO flushOkO).1 rfl).2,
   ((flush_shutdown_behavior strStream0 accept0 srv0 flushOkO flushOkO).2 rfl).1,
   ((flush_shutdown_behavior strStream0 accept0 srv0 flushOkO flushOkO).2 rfl).2⟩

/-- Claim C8: the peer address is captured from the raw connection at
construction and equals its `remote_addr`; the `Transport` accessor returns
exactly that captured value; and no read, write, flush, or shutdown ever
changes it. -/
theorem remote_addr_captured_and_preserved (raw : AddrStream) (config : ServerConfig)
    (s : TlsStream)
    (hsPoll : AcceptFuture → Poll (Except IoError RustlsServerStream))
    (streamRead : RustlsServerStream → Poll (Except IoError Unit))
    (streamWrite : RustlsServerStream → Poll (Except IoError Nat))
    (streamFlush : RustlsServerStream → Poll (Except IoError Unit))
    (streamShutdown : RustlsServerStream → Poll (Except IoError Unit)) :
    (TlsStream.new raw config).remote_addr = raw.remote_addr ∧
    (TlsStream.new raw config).transport_remote_addr = some raw.remote_addr ∧
    s.transport_remote_addr = some s.remote_addr ∧
    (s.poll_read hsPoll streamRead).2.remote_addr = s.remote_addr ∧
    (s.poll_write hsPoll streamWrite).2.remote_addr = s.remote_addr ∧
    (s.poll_flush streamFlush).2.remote_addr = s.remote_addr ∧
    (s.poll_shutdown streamShutdown).2.remote_addr = s.remote_addr :=
  ⟨rfl, rfl, rfl,
   poll_read_remote_addr s hsPoll streamRead,
   poll_write_remote_addr s hsPoll streamWrite,
   poll_flush_remote_addr s streamFlush,
   poll_shutdown_remote_addr s streamShutdown⟩

/-- Claim C9: the acceptor yields, in the same poll, a new `TlsStream` bound
to a shared handle of its configuration when the source yields a connection
(the new stream starting as `Handshaking` on that configuration and socket);
it propagates a source error as an item; it signals end of stream when the
source is exhausted; and a pending source is propagated as pending. -/
theorem poll_accept_behavior (acc : TlsAcceptor) (sock : AddrStream) (e : IoError) :
    acc.poll_accept (Poll.Ready (some (Except.ok sock))) =
      Poll.Ready (some (Except.ok (TlsStream.new sock acc.config))) ∧
    (TlsStream.new sock acc.config).state =
      State.Handshaking { config := acc.config, conn := sock } ∧
    acc.poll_accept (Poll.Ready (some (Except.error e))) =
      Poll.Ready (some (Except.error e)) ∧
    acc.poll_accept (Poll.Ready none) = Poll.Ready none ∧
    acc.poll_accept Poll.Pending = Poll.Pending :=
  ⟨rfl, rfl, rfl, rfl, rfl⟩

/-- Claim C10: every builder setter fully replaces its field and leaves the
other fields unchanged (stated as whole-record equations), regardless of
whether the previous value came from a path or a byte buffer; in particular a
later `client_auth_*` call overwrites both the earlier client-auth mode and
its trust-anchor source, and a byte setter overwrites an earlier path
setter. -/
theorem builder_setters_last_wins (b : TlsConfigBuilder) (p q : String)
    (k c ta o : List Nat) :
    b.key_path p = { b with key := CredSource.lazyFile p } ∧
    b.key_bytes k = { b with key := CredSource.cursor k } ∧
    b.cert_path p = { b with cert := CredSource.lazyFile p } ∧
    b.cert_bytes c = { b with cert := CredSource.cursor c } ∧
    b.client_auth_optional_path p =
      { b with client_auth := TlsClientAuth.Optional (CredSource.lazyFile p) } ∧
    b.client_auth_optional ta =
      { b with client_auth := TlsClientAuth.Optional (CredSource.cursor ta) } ∧
    b.client_auth_required_path p =
      { b with client_auth := TlsClientAuth.Required (CredSource.lazyFile p) } ∧
    b.client_auth_required ta =
      { b with client_auth := TlsClientAuth.Required (CredSource.cursor ta) } ∧
    b.ocsp_resp_bytes o = { b with ocsp_resp := o } ∧
    (b.key_path q).key_bytes k = { b with key := CredSource.cursor k } ∧
    (b.cert_bytes c).cert_path p = { b with cert := CredSource.lazyFile p } ∧
    ((b.client_auth_required_path q).client_auth_optional ta).client_auth =
      TlsClientAuth.Optional (CredSource.cursor ta) :=
  ⟨rfl, rfl, rfl, rfl, rfl, rfl, rfl, rfl, rfl, rfl, rfl, rfl⟩

end WarpTls
